import Mathlib

/-!
Verification development for the AgileRL evolutionary multi-agent RL toolkit.

The development shallowly embeds the parts of the repository that the
verified properties are about:

* the `train_multi_agent` training loop (`agilerl/training/train_multi_agent.py`):
  its per-generation step accounting, fitness evaluation, early stopping,
  checkpointing, argument validation, and two of its failure modes
  (the unbound `is_vectorised` local and the `losses[0]` dictionary lookup);
* the MATD3 agent operations exercised by `tests/test_matd3.py`
  (`soft_update`, the delayed policy update inside `learn`, and
  `scale_to_action_space`), modelled from the specification because the
  `MATD3` class itself is not part of the source tree here;
* the `MakeEvolvable` parameter-preserving rebuild exercised by
  `tests/test_make_evolvable.py`, likewise modelled from the specification.

Machine floats are modelled as exact rationals; tensors as index functions
with explicit shapes; Python exceptions as `Except` values.
-/

namespace AgileRL

/-- Modelled from the spec: an agent of the population, reduced to the two
history lists the training loop reads and writes — `steps` (the monotonically
growing step counter: the last entry is the current count, and one entry is
appended per generation) and `fitness` (one entry appended per evaluation).
The `MATD3` agent class itself is not under `src/`. -/
structure MAAgent where
  steps : List Nat
  fitness : List ℚ
deriving Repr, DecidableEq

/-- The current value of an agent's step counter: `agent.steps[-1]`. -/
def MAAgent.lastSteps (a : MAAgent) : Nat :=
  a.steps.getLastD 0

/-- Modelled from the spec: a freshly constructed agent starts with step
counter `[0]` and an empty fitness history (agent construction is not under
`src/`; the loop reads `agent.steps[-1]` before ever writing it, so the
initial list is nonempty). -/
def initAgent : MAAgent :=
  { steps := [0], fitness := [] }

/-- The arguments of `train_multi_agent` that drive the loop control flow
studied here (`max_steps`, `evo_steps`, the number of vectorized
environments, `target`, `checkpoint`). -/
structure TrainConfig where
  maxSteps : Nat
  evoSteps : Nat
  numEnvs : Nat
  target : Option ℚ
  checkpoint : Option Nat
deriving Repr, DecidableEq

/-- Loop guard of the RL training loop, `train_multi_agent.py` line 226:
`while np.less([agent.steps[-1] for agent in pop], max_steps).all()`. -/
def loopCond (maxSteps : Nat) (pop : List MAAgent) : Bool :=
  pop.all fun a => decide (a.lastSteps < maxSteps)

/-- Steps accumulated by one rollout window, lines 235, 249 and 273:
the local `steps` starts at `0` and gains `num_envs` on each of the
`range(evo_steps // num_envs)` inner iterations. -/
def rolloutSteps (evoSteps numEnvs : Nat) : Nat :=
  (List.range (evoSteps / numEnvs)).foldl (fun steps _ => steps + numEnvs) 0

/-- One agent's rollout window, ending with `agent.steps[-1] += steps`
(line 350). The environment interaction, replay-memory writes and learn
calls inside the window do not touch `steps` or `fitness`. -/
def rollout (cfg : TrainConfig) (a : MAAgent) : MAAgent :=
  { a with steps := a.steps.dropLast ++ [a.lastSteps + rolloutSteps cfg.evoSteps cfg.numEnvs] }

/-- Modelled from the spec: `agent.test(...)` (lines 369-374) obtains this
generation's fitness and records it in the agent's fitness history
(`MATD3.test` is not under `src/`; line 427 reads `agent.fitness[-1]`
after the evaluation). -/
def evaluateAgent (f : ℚ) (a : MAAgent) : MAAgent :=
  { a with fitness := a.fitness ++ [f] }

/-- End-of-generation step bookkeeping, lines 432-433:
`agent.steps.append(agent.steps[-1])`. -/
def appendStepCounter (a : MAAgent) : MAAgent :=
  { a with steps := a.steps ++ [a.lastSteps] }

/-- The last `n` entries of a list: Python `l[-n:]`. -/
def lastN (n : Nat) (l : List ℚ) : List ℚ :=
  l.drop (l.length - n)

/-- Arithmetic mean as computed by `np.mean`, over exact rationals. -/
def npMean (l : List ℚ) : ℚ :=
  l.sum / (l.length : ℚ)

/-- Recent mean fitness, `np.mean(agent.fitness[-10:])` (line 439). -/
def meanLast10 (l : List ℚ) : ℚ :=
  npMean (lastN 10 l)

/-- Early-stopping test, lines 436-442: the loop returns early when a target
is configured, `np.all(np.greater([np.mean(agent.fitness[-10:]) for agent in
pop], target))` holds, and `len(pop[0].steps) >= 100`. -/
def earlyStop (target : Option ℚ) (pop : List MAAgent) : Bool :=
  match target with
  | none => false
  | some t =>
      (pop.all fun a => decide (t < meanLast10 a.fitness))
        && decide (100 ≤ ((pop.headD initAgent).steps).length)

/-- Loop-carried state of `train_multi_agent`: the population, the number of
completed generations, `checkpoint_count` (line 218), and the log of
checkpoint events (each event records `agent.steps[-1]` for every saved
agent, as in the filenames of lines 524-525). -/
structure TrainState where
  pop : List MAAgent
  gens : Nat
  checkpointCount : Nat
  checkpointSaves : List (List Nat)
deriving Repr, DecidableEq

/-- Checkpoint block, lines 505-527: when a checkpoint interval is
configured and `pop[0].steps[-1] // checkpoint > checkpoint_count`, every
agent is saved once and `checkpoint_count` is incremented by one. -/
def checkpointStep (cfg : TrainConfig) (s : TrainState) : TrainState :=
  match cfg.checkpoint with
  | none => s
  | some c =>
      if s.checkpointCount < (s.pop.headD initAgent).lastSteps / c then
        { s with
          checkpointSaves := s.checkpointSaves ++ [s.pop.map fun a => a.lastSteps]
          checkpointCount := s.checkpointCount + 1 }
      else s

/-- Evaluation sweep of lines 369-375: `agent.test` is called once for each
agent of the population in order (`fitG i` is the fitness the abstract
`test` call returns for the agent at position `i`). -/
def evalSweep (fitG : Nat → ℚ) : Nat → List MAAgent → List MAAgent
  | _, [] => []
  | i, a :: rest => evaluateAgent (fitG i) a :: evalSweep fitG (i + 1) rest

/-- One iteration of the RL training loop body (lines 229-527), restricted
to the observables of the verified properties: rollout windows for every
agent, fitness evaluation (`fitOf g i` is the fitness the abstract `test`
call returns for agent `i` in generation `g`), step-counter bookkeeping,
the early return of lines 436-445 (`Sum.inl`), and the checkpoint block. -/
def generationStep (cfg : TrainConfig) (fitOf : Nat → Nat → ℚ) (s : TrainState) :
    TrainState ⊕ TrainState :=
  let popR := s.pop.map (rollout cfg)
  let popE := evalSweep (fitOf s.gens) 0 popR
  let popS := popE.map appendStepCounter
  if earlyStop cfg.target popS then
    Sum.inl { s with pop := popS, gens := s.gens + 1 }
  else
    Sum.inr (checkpointStep cfg { s with pop := popS, gens := s.gens + 1 })

/-- The RL training loop of lines 226-538, with explicit fuel: `none` means
the fuel ran out before the loop finished, `some` is the state at return.
The loop returns either through the early stop (line 445) or through the
guard of line 226 becoming false. -/
def trainLoopAux (cfg : TrainConfig) (fitOf : Nat → Nat → ℚ) :
    Nat → TrainState → Option TrainState
  | 0, _ => none
  | fuel + 1, s =>
      if loopCond cfg.maxSteps s.pop then
        match generationStep cfg fitOf s with
        | Sum.inl final => some final
        | Sum.inr s2 => trainLoopAux cfg fitOf fuel s2
      else some s

/-- Initial loop state for a population of `popSize` fresh agents. -/
def initTrainState (popSize : Nat) : TrainState :=
  { pop := List.replicate popSize initAgent
    gens := 0
    checkpointCount := 0
    checkpointSaves := [] }

/-- Configuration of the end-to-end scenario of the spec: `max_steps=200`,
`evo_steps=25`, a single non-vectorized environment, no target score and no
checkpointing. -/
def scenarioConfig : TrainConfig :=
  { maxSteps := 200, evoSteps := 25, numEnvs := 1, target := none, checkpoint := none }

/-- Closed form of an agent of the scenario population after `g` complete
generations: the step counter has gained 25 per generation with one entry
appended per generation, and the fitness history holds one evaluation
result per generation. -/
def scenarioAgent (fitOf : Nat → Nat → ℚ) (g idx : Nat) : MAAgent :=
  { steps := ((List.range g).map fun i => 25 * (i + 1)) ++ [25 * g]
    fitness := (List.range g).map fun i => fitOf i idx }

/-- Closed form of the scenario loop state after `g` complete generations. -/
def scenarioState (fitOf : Nat → Nat → ℚ) (g : Nat) : TrainState :=
  { pop := [scenarioAgent fitOf g 0, scenarioAgent fitOf g 1]
    gens := g
    checkpointCount := 0
    checkpointSaves := [] }

/-- The warnings the argument-validation prologue of `train_multi_agent`
can emit (lines 114-123). -/
inductive TrainWarning
  | eliteNotSaved
  | checkpointNotSaved
deriving DecidableEq, Repr

/-- The save-related arguments of `train_multi_agent` that the warning
prologue inspects. -/
structure SaveArgs where
  save_elite : Bool
  elitePath : Option String
  checkpoint : Option Nat
  checkpointPath : Option String
deriving DecidableEq, Repr

/-- Argument-validation prologue, lines 99-123. The `assert` statements of
lines 99-113 check Python dynamic types, which the typed embedding
satisfies by construction, so with well-formed arguments the prologue never
raises; lines 114-118 warn when `save_elite is False and elite_path is not
None`, lines 119-123 warn when `checkpoint is None and checkpoint_path is
not None`, and execution continues in both cases. -/
def startupChecks (args : SaveArgs) : Except String (List TrainWarning) :=
  let w1 : List TrainWarning :=
    if args.save_elite = false ∧ args.elitePath.isSome then [.eliteNotSaved] else []
  let w2 : List TrainWarning :=
    if args.checkpoint = none ∧ args.checkpointPath.isSome then [.checkpointNotSaved] else []
  Except.ok (w1 ++ w2)

/-- Python exceptions raised by the embedded fragments. -/
inductive PyErr
  | unboundLocal
  | keyError
deriving DecidableEq, Repr

/-- Lines 170-174: the local `is_vectorised` is assigned (to `False`) only
on the branch where the environment is not a
`PettingZooVectorizationParallelWrapper`; on the vectorized branch only
`num_envs` is assigned. `none` models the unassigned local. -/
def isVectorisedLocal (vectorised : Bool) : Option Bool :=
  if vectorised then none else some false

/-- Reading a Python local: an unassigned local raises `UnboundLocalError`. -/
def readLocal (v : Option Bool) : Except PyErr Bool :=
  match v with
  | none => Except.error PyErr.unboundLocal
  | some b => Except.ok b

/-- First rollout iteration of the training loop, up to and including the
first attempt to save a transition to replay memory: the `swap_channels`
blocks of lines 237-247 and 276-284 read `is_vectorised`, and the
`memory.save2memory(..., is_vectorised=is_vectorised)` call of lines
286-293 always reads it. On success the returned flag is the value passed
to `save2memory`. The intervening `getAction`/`env.step` calls (lines
249-273) do not read `is_vectorised`. -/
def firstTransitionSave (vectorised swapChannels : Bool) : Except PyErr Bool := do
  let iv := isVectorisedLocal vectorised
  if swapChannels then
    let _ ← readLocal iv
  if swapChannels then
    let _ ← readLocal iv
  readLocal iv

/-- Agent identities as used by the loop: PettingZoo-style environments use
strings such as `"agent_0"`, but a dictionary key can also be an integer. -/
inductive AgentId
  | int (n : Int)
  | str (s : String)
deriving DecidableEq, Repr

/-- Line 233: `losses = {agent_id: [] for agent_id in agent_ids}` — the
per-identity loss dictionary, keyed by the environment's agent identities,
as an ordered association list. -/
def initLosses (agentIds : List AgentId) : List (AgentId × List ℚ) :=
  agentIds.map fun agent_id => (agent_id, [])

/-- Python dictionary subscript: `d[k]` raises `KeyError` when the key is
absent. -/
def dictGet (d : List (AgentId × List ℚ)) (k : AgentId) : Except PyErr (List ℚ) :=
  match d.find? (fun p => p.1 == k) with
  | none => Except.error PyErr.keyError
  | some p => Except.ok p.2

/-- Line 353: `if len(losses[0]) > 0:` — the loss-aggregation guard run
unconditionally after each agent's rollout window, indexing the losses
dictionary with the literal integer key `0`. -/
def lossWindowCheck (losses : List (AgentId × List ℚ)) : Except PyErr Bool := do
  let l ← dictGet losses (AgentId.int 0)
  pure (decide (0 < l.length))

/-- Modelled from the spec: a network's parameters as an ordered list of
parameter tensors, each a flat list of exact-rational entries — mirroring
`zip(net.parameters(), target.parameters())` in the MATD3 soft-update test
(`MATD3` itself is not under `src/`). -/
abbrev NetParams := List (List ℚ)

/-- Modelled from the spec: `soft_update(net, target)` blends every entry
of every parameter tensor of the target network toward the live network:
`target = tau*live + (1-tau)*target`. -/
def softUpdateParams (tau : ℚ) (live tgt : NetParams) : NetParams :=
  List.zipWith (fun liveT tgtT =>
    List.zipWith (fun x y => tau * x + (1 - tau) * y) liveT tgtT) live tgt

/-- Modelled from the spec: the six networks a MATD3 agent holds for one
agent identity — actor, twin critics, and their slow-moving target
copies. -/
structure MATD3Nets where
  actor : NetParams
  actorTarget : NetParams
  critic1 : NetParams
  criticTarget1 : NetParams
  critic2 : NetParams
  criticTarget2 : NetParams
deriving DecidableEq, Repr

/-- The three live/target network pairs `soft_update` is applied to. -/
inductive NetRole
  | actor
  | critic1
  | critic2
deriving DecidableEq, Repr

/-- The live network of each pair. -/
def livePart : NetRole → MATD3Nets → NetParams
  | .actor, n => n.actor
  | .critic1, n => n.critic1
  | .critic2, n => n.critic2

/-- The target network of each pair. -/
def targetPart : NetRole → MATD3Nets → NetParams
  | .actor, n => n.actorTarget
  | .critic1, n => n.criticTarget1
  | .critic2, n => n.criticTarget2

/-- Modelled from the spec: one soft-update pass over the whole agent —
`soft_update(actor, actor_target)`, `soft_update(critic_1,
critic_target_1)` and `soft_update(critic_2, critic_target_2)`, as in
`tests/test_matd3.py` lines 1815-1865. -/
def softUpdateAll (tau : ℚ) (n : MATD3Nets) : MATD3Nets :=
  { n with
    actorTarget := softUpdateParams tau n.actor n.actorTarget
    criticTarget1 := softUpdateParams tau n.critic1 n.criticTarget1
    criticTarget2 := softUpdateParams tau n.critic2 n.criticTarget2 }

/-- Modelled from the spec: the state `learn` threads across calls — the
internal update counter plus the agent's networks. -/
structure MATD3LearnState where
  learnCounter : Nat
  nets : MATD3Nets

/-- Modelled from the spec: one `learn(experiences)` call. Both critics
are regressed on every call (`criticStep1`/`criticStep2` are the abstract
first-order gradient updates of the out-of-scope tensor math); the actor
is updated only on calls where the internal update counter is a multiple
of `policy_freq`, by a gradient step `actorStep` computed from the
already-updated critics (delayed policy update, after the critic update);
the target networks are soft-updated exactly on those calls. -/
def matd3Learn (policyFreq : Nat) (tau : ℚ)
    (criticStep1 criticStep2 actorStep : MATD3Nets → NetParams)
    (s : MATD3LearnState) : MATD3LearnState :=
  let afterCritics : MATD3Nets :=
    { s.nets with critic1 := criticStep1 s.nets, critic2 := criticStep2 s.nets }
  if s.learnCounter % policyFreq = 0 then
    { learnCounter := s.learnCounter + 1
      nets :=
        { afterCritics with
          actor := actorStep afterCritics
          actorTarget :=
            softUpdateParams tau (actorStep afterCritics) afterCritics.actorTarget
          criticTarget1 :=
            softUpdateParams tau afterCritics.critic1 afterCritics.criticTarget1
          criticTarget2 :=
            softUpdateParams tau afterCritics.critic2 afterCritics.criticTarget2 } }
  else
    { learnCounter := s.learnCounter + 1, nets := afterCritics }

/-- A sequence of `learn` calls from an initial state. -/
def learnIter (policyFreq : Nat) (tau : ℚ)
    (criticStep1 criticStep2 actorStep : MATD3Nets → NetParams)
    (s0 : MATD3LearnState) : Nat → MATD3LearnState
  | 0 => s0
  | n + 1 => matd3Learn policyFreq tau criticStep1 criticStep2 actorStep
      (learnIter policyFreq tau criticStep1 criticStep2 actorStep s0 n)

/-- Concrete networks used to witness the MATD3 theorems. -/
def sampleNets : MATD3Nets :=
  { actor := [[4]], actorTarget := [[2]], critic1 := [[6]],
    criticTarget1 := [[0]], critic2 := [[8]], criticTarget2 := [[0]] }

/-- Concrete learn state used to witness the delayed-policy-update
theorem. -/
def sampleLearnState : MATD3LearnState :=
  { learnCounter := 0, nets := sampleNets }

/-- Actor output activation kinds relevant to action scaling. -/
inductive OutputActivation
  | tanhAct
  | sigmoidAct
  | gumbelSoftmaxAct
deriving DecidableEq, Repr

/-- The output range each activation produces: Tanh outputs lie in
`[-1, 1]`, Sigmoid and GumbelSoftmax outputs in `[0, 1]`. -/
def preScaledBounds : OutputActivation → ℚ × ℚ
  | .tanhAct => (-1, 1)
  | .sigmoidAct => (0, 1)
  | .gumbelSoftmaxAct => (0, 1)

/-- Modelled from the spec: `scale_to_action_space` rescales an actor
output from the activation's output range onto the declared per-agent
`[min_action, max_action]` bounds (`MATD3.scale_to_action_space` is not
under `src/`; `tests/test_matd3.py` lines 2786-2838 pin its values). -/
def scale_to_action_space (act : OutputActivation) (minAction maxAction value : ℚ) : ℚ :=
  minAction
    + (maxAction - minAction) * (value - (preScaledBounds act).1)
      / ((preScaledBounds act).2 - (preScaledBounds act).1)

/-- A parameter tensor: a shape plus an entry function (entries outside
the shape are irrelevant). Exact rationals model the stored float words,
so entry equality is bit-identity. -/
structure PTensor where
  rows : Nat
  cols : Nat
  entry : Nat → Nat → ℚ

/-- The named weighted layers of an evolvable MLP: hidden linear layers
(indexed by position) and the output layer — the stable parameter names
that `preserve_parameters` matches on. -/
inductive LayerKey
  | hiddenLayer (k : Nat)
  | outputLayer
deriving DecidableEq, Repr

/-- Whether a named layer exists in an architecture with hidden sizes
`hs`. -/
def keyPresent (hs : List Nat) : LayerKey → Prop
  | .hiddenLayer k => k < hs.length
  | .outputLayer => True

instance (hs : List Nat) : (key : LayerKey) → Decidable (keyPresent hs key)
  | .hiddenLayer k => Nat.decLt k hs.length
  | .outputLayer => Decidable.isTrue trivial

/-- Input dimension of each named layer in an MLP with input size `inp`
and hidden sizes `hs`. -/
def layerInDim (inp : Nat) (hs : List Nat) : LayerKey → Nat
  | .hiddenLayer 0 => inp
  | .hiddenLayer (k + 1) => hs.getD k 0
  | .outputLayer => hs.getLastD inp

/-- Output dimension of each named layer in an MLP with output size `outp`
and hidden sizes `hs`. -/
def layerOutDim (outp : Nat) (hs : List Nat) : LayerKey → Nat
  | .hiddenLayer k => hs.getD k 0
  | .outputLayer => outp

/-- A live parameterized MLP: the architecture it realizes and its named
parameter tensors. -/
structure MLPNet where
  hiddenSizes : List Nat
  params : LayerKey → PTensor

/-- Modelled from the spec, step (3) of the rebuild protocol: instantiate
a fresh parameterized network from the descriptor; `fresh` supplies the
freshly initialized (not zero) parameter values. -/
def createMLP (fresh : LayerKey → Nat → Nat → ℚ) (inp outp : Nat) (hs : List Nat) : MLPNet :=
  { hiddenSizes := hs
    params := fun key =>
      { rows := layerOutDim outp hs key
        cols := layerInDim inp hs key
        entry := fresh key } }

/-- Modelled from the spec, step (4) of the rebuild protocol: copy every
old parameter tensor into the corresponding slice of the new tensor by
matching name, padding or truncating the mismatched dimension — entries
inside the old shape keep the old value, grown rows/columns keep the
freshly initialized values of the new tensor, shrink truncates. Names
absent from the old network keep the new network's fresh tensor. -/
def preserve_parameters (oldNet newNet : MLPNet) : MLPNet :=
  { newNet with
    params := fun key =>
      if keyPresent oldNet.hiddenSizes key then
        { rows := (newNet.params key).rows
          cols := (newNet.params key).cols
          entry := fun i j =>
            if i < (oldNet.params key).rows ∧ j < (oldNet.params key).cols then
              (oldNet.params key).entry i j
            else (newNet.params key).entry i j }
      else newNet.params key }

/-- Modelled from the spec: an evolvable MLP — the mutable architecture
descriptor (`hidden_size` plus fixed input/output dimensions) and the live
network built from it. Invariant: the live network's shapes match the
descriptor (re-established by every rebuild). -/
structure EvoMLP where
  inputSize : Nat
  outputSize : Nat
  hidden_size : List Nat
  value_net : MLPNet

/-- Modelled from the spec: `recreate_nets` — rebuild the live network
from the current descriptor and preserve the old parameters, replacing the
live network reference atomically (`tests/test_make_evolvable.py` lines
470-514 exercise it after growing and shrinking `hidden_size`). -/
def recreate_nets (fresh : LayerKey → Nat → Nat → ℚ) (net : EvoMLP) : EvoMLP :=
  { net with
    value_net :=
      preserve_parameters net.value_net
        (createMLP fresh net.inputSize net.outputSize net.hidden_size) }

/-- Architecture-mutation bounds (min/max hidden layers and nodes per
layer). -/
structure EvoBounds where
  minHiddenLayers : Nat
  maxHiddenLayers : Nat
  minMLPNodes : Nat
  maxMLPNodes : Nat

/-- The supported MLP architecture mutations: add/remove a hidden layer,
add/remove nodes of a hidden layer, or rewrite the hidden-size list
directly before a rebuild (as the `recreate_nets` tests do). -/
inductive MLPMutation
  | addLayer
  | removeLayer
  | addNode (layer numNewNodes : Nat)
  | removeNode (layer numNewNodes : Nat)
  | setHiddenSize (hs : List Nat)

/-- Modelled from the spec, steps (1)-(2) of the rebuild protocol:
validate the mutation against the configured bounds (out-of-bounds
requests leave the descriptor unchanged) and apply it to the descriptor —
an added hidden layer duplicates the width of the adjacent (last) layer,
node changes are clamped to the configured node bounds. -/
def mutateHiddenSize (b : EvoBounds) : MLPMutation → List Nat → List Nat
  | .addLayer, hs => if hs.length < b.maxHiddenLayers then hs ++ [hs.getLastD 0] else hs
  | .removeLayer, hs => if b.minHiddenLayers < hs.length then hs.dropLast else hs
  | .addNode layer numNewNodes, hs =>
      hs.set layer (min b.maxMLPNodes (hs.getD layer 0 + numNewNodes))
  | .removeNode layer numNewNodes, hs =>
      hs.set layer (max b.minMLPNodes (hs.getD layer 0 - numNewNodes))
  | .setHiddenSize hs2, _ => hs2

/-- Modelled from the spec: a full architecture mutation — descriptor
change followed by the parameter-preserving rebuild. -/
def applyMutation (b : EvoBounds) (fresh : LayerKey → Nat → Nat → ℚ)
    (m : MLPMutation) (net : EvoMLP) : EvoMLP :=
  recreate_nets fresh { net with hidden_size := mutateHiddenSize b m net.hidden_size }

/-- Concrete evolvable network used to witness the parameter-preservation
theorem: input 2, output 1, hidden sizes `[2, 3]`, entry `(i, j)` of every
tensor holding `10*i + j`. -/
def sampleEvoNet : EvoMLP :=
  { inputSize := 2
    outputSize := 1
    hidden_size := [2, 3]
    value_net := createMLP (fun _ i j => (i : ℚ) * 10 + (j : ℚ)) 2 1 [2, 3] }

/-- Concrete mutation bounds used to witness the parameter-preservation
theorem. -/
def sampleBounds : EvoBounds :=
  { minHiddenLayers := 1
    maxHiddenLayers := 4
    minMLPNodes := 1
    maxMLPNodes := 64 }

theorem rolloutSteps_scenario : rolloutSteps 25 1 = 25 := by
  rfl

theorem scenarioAgent_lastSteps (fitOf : Nat → Nat → ℚ) (g idx : Nat) :
    (scenarioAgent fitOf g idx).lastSteps = 25 * g := by
  simp [scenarioAgent, MAAgent.lastSteps, List.getLastD_concat]

theorem rollout_scenarioAgent (fitOf : Nat → Nat → ℚ) (g idx : Nat) :
    rollout scenarioConfig (scenarioAgent fitOf g idx)
      = { steps := ((List.range g).map fun i => 25 * (i + 1)) ++ [25 * (g + 1)]
          fitness := (List.range g).map fun i => fitOf i idx } := by
  simp [rollout, scenarioAgent, scenarioConfig, scenarioAgent_lastSteps,
    rolloutSteps_scenario, List.dropLast_concat, MAAgent.lastSteps,
    List.getLastD_concat, Nat.mul_succ]

theorem scenario_generation (fitOf : Nat → Nat → ℚ) (g : Nat) :
    generationStep scenarioConfig fitOf (scenarioState fitOf g)
      = Sum.inr (scenarioState fitOf (g + 1)) := by
  have hagent : ∀ idx,
      appendStepCounter
          (evaluateAgent (fitOf g idx) (rollout scenarioConfig (scenarioAgent fitOf g idx)))
        = scenarioAgent fitOf (g + 1) idx := by
    intro idx
    rw [rollout_scenarioAgent]
    simp [appendStepCounter, evaluateAgent, scenarioAgent, MAAgent.lastSteps,
      List.getLastD_concat, List.range_succ]
  simp [generationStep, scenarioState, evalSweep, earlyStop, scenarioConfig,
    checkpointStep]
  exact ⟨hagent 0, hagent 1⟩

theorem scenario_loop (fitOf : Nat → Nat → ℚ) :
    ∀ k g, g + k = 8 →
      trainLoopAux scenarioConfig fitOf (k + 1) (scenarioState fitOf g)
        = some (scenarioState fitOf 8) := by
  intro k
  induction k with
  | zero =>
      intro g hg
      have hg8 : g = 8 := by omega
      subst hg8
      have hcond : loopCond scenarioConfig.maxSteps (scenarioState fitOf 8).pop = false := by
        simp [loopCond, scenarioState, scenarioAgent_lastSteps, scenarioConfig]
      simp [trainLoopAux, hcond]
  | succ k ih =>
      intro g hg
      have hlt : 25 * g < 200 := by omega
      have hcond : loopCond scenarioConfig.maxSteps (scenarioState fitOf g).pop = true := by
        simp [loopCond, scenarioState, scenarioAgent_lastSteps, scenarioConfig]
        omega
      rw [trainLoopAux, hcond]
      simp only [scenario_generation]
      exact ih (g + 1) (by omega)

/-- Claim C2: for a 2-agent population trained with `max_steps=200` and
`evo_steps=25` on a single non-vectorized environment, the training loop
runs to completion (8 generations and a final guard check, hence fuel 9
suffices), and on return every agent's step counter equals 200 and every
agent's fitness history has exactly 8 entries — whatever fitness values the
evaluations return. -/
theorem train_scenario_steps_and_fitness (fitOf : Nat → Nat → ℚ) :
    (trainLoopAux scenarioConfig fitOf 9 (initTrainState 2)).map
        (fun s => s.pop.map fun a => (a.lastSteps, a.fitness.length))
      = some [(200, 8), (200, 8)] := by
  have hinit : initTrainState 2 = scenarioState fitOf 0 := by
    simp [initTrainState, scenarioState, scenarioAgent, initAgent,
      List.replicate]
  rw [hinit, scenario_loop fitOf 8 0 rfl]
  simp [scenarioState, scenarioAgent, MAAgent.lastSteps, List.getLastD_concat]

/-- Claim C3: the training loop terminates once every agent's step counter
has reached `max_steps` — the guard of line 226 then fails and the loop
returns the population — and, when a target score is configured, the loop
returns early exactly when every agent's recent mean fitness
(`np.mean(agent.fitness[-10:])`) is strictly greater than the target and at
least 100 generations have been recorded in the step history
(`len(pop[0].steps) >= 100`, the sustained-generations requirement of
lines 436-442). -/
theorem termination_and_early_stop_conditions
    (cfg : TrainConfig) (fitOf : Nat → Nat → ℚ) (fuel : Nat) (s : TrainState)
    (t : ℚ) (pop : List MAAgent) (hne : pop ≠ []) :
    ((∀ a ∈ pop, cfg.maxSteps ≤ a.lastSteps) → loopCond cfg.maxSteps pop = false)
    ∧ (loopCond cfg.maxSteps s.pop = false →
        trainLoopAux cfg fitOf (fuel + 1) s = some s)
    ∧ (earlyStop (some t) pop = true ↔
        ((∀ a ∈ pop, t < meanLast10 a.fitness)
          ∧ 100 ≤ ((pop.headD initAgent).steps).length)) := by
  refine ⟨?_, ?_, ?_⟩
  · intro h
    match pop, hne with
    | a :: rest, _ =>
      have ha := h a (List.mem_cons_self a rest)
      have hd : decide (a.lastSteps < cfg.maxSteps) = false := by
        simp only [decide_eq_false_iff_not, not_lt]
        exact ha
      simp [loopCond, hd]
  · intro h
    simp [trainLoopAux, h]
  · simp [earlyStop, Bool.and_eq_true, List.all_eq_true, decide_eq_true_eq]

/-- Witness for C3 at a concrete input: a one-agent population whose step
counter already reached `max_steps = 200` makes the loop guard false. -/
theorem termination_and_early_stop_conditions_witness :
    loopCond scenarioConfig.maxSteps [{ steps := [200], fitness := [] }] = false :=
  (termination_and_early_stop_conditions scenarioConfig (fun _ _ => 0) 0
      (initTrainState 2) 0 [{ steps := [200], fitness := [] }]
      (List.cons_ne_nil _ _)).1 (by decide)

/-- Claim C7 counterexample: with checkpoint interval 10 and 25 steps per
generation (`max_steps = 25`, one agent), the first generation ends with
`steps[-1] // checkpoint = 2` full intervals elapsed since the previous
(nonexistent) checkpoint, yet exactly one checkpoint was written — not one
checkpoint per elapsed interval. -/
theorem checkpoint_once_per_interval_counterexample :
    (trainLoopAux
          { maxSteps := 25, evoSteps := 25, numEnvs := 1,
            target := none, checkpoint := some 10 }
          (fun _ _ => 0) 2 (initTrainState 1)).map
        (fun s => (s.checkpointSaves.length, (s.pop.headD initAgent).lastSteps / 10))
      = some (1, 2) ∧ (1 : Nat) ≠ 2 :=
  ⟨rfl, by decide⟩

/-- Claim C7 (amended): when a checkpoint interval `c` is configured, each
generation writes at most one checkpoint; one is written — persisting every
agent's state, recorded here by each agent's current step count — exactly
when the number of elapsed intervals `pop[0].steps[-1] // c` exceeds the
number of checkpoints already written (`checkpoint_count`), and the counter
then increments by one; otherwise the checkpoint state is unchanged. -/
theorem checkpoint_write_condition (cfg : TrainConfig) (s : TrainState) (c : Nat)
    (hc : cfg.checkpoint = some c) :
    (s.checkpointCount < (s.pop.headD initAgent).lastSteps / c →
        (checkpointStep cfg s).checkpointSaves
            = s.checkpointSaves ++ [s.pop.map fun a => a.lastSteps]
          ∧ (checkpointStep cfg s).checkpointCount = s.checkpointCount + 1)
    ∧ (¬ s.checkpointCount < (s.pop.headD initAgent).lastSteps / c →
        checkpointStep cfg s = s)
    ∧ (checkpointStep cfg s).checkpointSaves.length ≤ s.checkpointSaves.length + 1 := by
  simp only [checkpointStep, hc]
  by_cases h : s.checkpointCount < (s.pop.headD initAgent).lastSteps / c
  · rw [if_pos h]
    exact ⟨fun _ => ⟨rfl, rfl⟩, fun hn => absurd h hn, by simp⟩
  · rw [if_neg h]
    exact ⟨fun h2 => absurd h2 h, fun _ => rfl, by simp⟩

/-- Witness for C7 (amended) at a concrete input: one agent at 25 steps,
interval 10, no checkpoint written yet — a single checkpoint is written and
the counter becomes 1. -/
theorem checkpoint_write_condition_witness :
    (checkpointStep
          { maxSteps := 25, evoSteps := 25, numEnvs := 1,
            target := none, checkpoint := some 10 }
          { pop := [{ steps := [25], fitness := [] }], gens := 1,
            checkpointCount := 0, checkpointSaves := [] }).checkpointSaves = [[25]]
    ∧ (checkpointStep
          { maxSteps := 25, evoSteps := 25, numEnvs := 1,
            target := none, checkpoint := some 10 }
          { pop := [{ steps := [25], fitness := [] }], gens := 1,
            checkpointCount := 0, checkpointSaves := [] }).checkpointCount = 1 :=
  (checkpoint_write_condition _ _ 10 rfl).1 (by decide)

/-- Claim C8: calling `train_multi_agent` with `save_elite=False` but a
non-`None` `elite_path`, or with `checkpoint=None` but a non-`None`
`checkpoint_path`, emits the corresponding warning and continues — the
validation prologue returns normally instead of raising (and the warning
appears exactly under those argument combinations). -/
theorem warn_path_without_flag (args : SaveArgs) :
    ∃ ws, startupChecks args = Except.ok ws
      ∧ (TrainWarning.eliteNotSaved ∈ ws ↔
          (args.save_elite = false ∧ args.elitePath.isSome))
      ∧ (TrainWarning.checkpointNotSaved ∈ ws ↔
          (args.checkpoint = none ∧ args.checkpointPath.isSome)) := by
  refine ⟨_, rfl, ?_, ?_⟩ <;>
    by_cases h1 : args.save_elite = false ∧ args.elitePath.isSome <;>
    by_cases h2 : args.checkpoint = none ∧ args.checkpointPath.isSome <;>
    simp [h1, h2]

/-- Claim C9: whenever the environment is a
`PettingZooVectorizationParallelWrapper` (the vectorized case), the first
attempt to save a transition to replay memory raises `UnboundLocalError`,
because `is_vectorised` is assigned only on the non-vectorized branch of
lines 170-174 yet is always passed to `memory.save2memory` (line 292) —
with `swap_channels` enabled, the very same unbound read already fails in
the channel-swap block. In the non-vectorized case the save succeeds. -/
theorem vectorised_env_unbound_local (swapChannels : Bool) :
    firstTransitionSave true swapChannels = Except.error PyErr.unboundLocal
    ∧ ∃ b, firstTransitionSave false swapChannels = Except.ok b := by
  cases swapChannels <;> exact ⟨rfl, _, rfl⟩

/-- Claim C10: when the environment's agent identities do not include the
integer `0` (e.g. PettingZoo string identities such as `"agent_0"`), the
loss-aggregation guard `if len(losses[0]) > 0:` executed after each agent's
rollout window raises `KeyError`, because the per-identity losses
dictionary is indexed with the literal key `0`. -/
theorem losses_int_key_error (agentIds : List AgentId)
    (h : AgentId.int 0 ∉ agentIds) :
    lossWindowCheck (initLosses agentIds) = Except.error PyErr.keyError := by
  have hfind : (initLosses agentIds).find? (fun p => p.1 == AgentId.int 0) = none := by
    rw [List.find?_eq_none]
    intro p hp
    simp only [initLosses, List.mem_map] at hp
    obtain ⟨a, ha, rfl⟩ := hp
    simp only [beq_iff_eq]
    intro hEq
    exact h (by rwa [hEq] at ha)
  simp [lossWindowCheck, dictGet, hfind]

/-- Witness for C10 at a concrete input: the PettingZoo-style identity list
`["agent_0", "agent_1"]` makes the aggregation guard raise `KeyError`. -/
theorem losses_int_key_error_witness :
    lossWindowCheck (initLosses [AgentId.str "agent_0", AgentId.str "agent_1"])
      = Except.error PyErr.keyError :=
  losses_int_key_error _ (by decide)

theorem getD_zipWith {α β γ : Type} (f : α → β → γ) (l : List α) (m : List β)
    (i : Nat) (hl : i < l.length) (hm : i < m.length) (d : γ) (dl : α) (dm : β) :
    (List.zipWith f l m).getD i d = f (l.getD i dl) (m.getD i dm) := by
  induction l generalizing m i with
  | nil => simp at hl
  | cons a l ih =>
    cases m with
    | nil => simp at hm
    | cons bm m =>
      cases i with
      | zero => simp
      | succ i =>
        simp only [List.zipWith_cons_cons, List.getD_cons_succ]
        exact ih m i (by simpa using hl) (by simpa using hm)

/-- Claim C5: one `soft_update(live, target)` call sets every entry of
every target parameter tensor to exactly `tau*theta + (1-tau)*thetaT`,
where `theta` is the live entry and `thetaT` the old target entry — for
the actor and for both critics — and leaves the live networks untouched. -/
theorem soft_update_formula (tau : ℚ) (nets : MATD3Nets) (role : NetRole)
    (ti pIdx : Nat)
    (hl : ti < (livePart role nets).length)
    (ht : ti < (targetPart role nets).length)
    (hpl : pIdx < ((livePart role nets).getD ti []).length)
    (hpt : pIdx < ((targetPart role nets).getD ti []).length) :
    ((targetPart role (softUpdateAll tau nets)).getD ti []).getD pIdx 0
        = tau * (((livePart role nets).getD ti []).getD pIdx 0)
          + (1 - tau) * (((targetPart role nets).getD ti []).getD pIdx 0)
    ∧ livePart role (softUpdateAll tau nets) = livePart role nets := by
  cases role <;>
    · simp only [livePart, targetPart, softUpdateAll, softUpdateParams] at hl ht hpl hpt ⊢
      refine ⟨?_, by trivial⟩
      rw [getD_zipWith _ _ _ ti hl ht [] [] [], getD_zipWith _ _ _ pIdx hpl hpt 0 0 0]

/-- Witness for C5 at a concrete input: actor entry 4, actor-target entry
2, `tau = 1/2` — the new target entry is `1/2*4 + (1 - 1/2)*2`. -/
theorem soft_update_formula_witness :
    ((targetPart NetRole.actor (softUpdateAll (1/2) sampleNets)).getD 0 []).getD 0 0
        = (1/2) * (((livePart NetRole.actor sampleNets).getD 0 []).getD 0 0)
          + (1 - (1/2)) * (((targetPart NetRole.actor sampleNets).getD 0 []).getD 0 0)
    ∧ livePart NetRole.actor (softUpdateAll (1/2) sampleNets)
        = livePart NetRole.actor sampleNets :=
  soft_update_formula (1/2) sampleNets NetRole.actor 0 0 (by decide) (by decide)
    (by decide) (by decide)

theorem matd3Learn_counter (policyFreq : Nat) (tau : ℚ)
    (criticStep1 criticStep2 actorStep : MATD3Nets → NetParams)
    (s : MATD3LearnState) :
    (matd3Learn policyFreq tau criticStep1 criticStep2 actorStep s).learnCounter
      = s.learnCounter + 1 := by
  simp only [matd3Learn]
  by_cases h : s.learnCounter % policyFreq = 0 <;> simp [h]

theorem learnIter_counter (policyFreq : Nat) (tau : ℚ)
    (criticStep1 criticStep2 actorStep : MATD3Nets → NetParams)
    (s0 : MATD3LearnState) (n : Nat) :
    (learnIter policyFreq tau criticStep1 criticStep2 actorStep s0 n).learnCounter
      = s0.learnCounter + n := by
  induction n with
  | zero => rfl
  | succ n ih =>
      simp only [learnIter, matd3Learn_counter, ih]
      omega

/-- Claim C4: across any sequence of `learn` calls, the actor's parameters
and the actor target's parameters (and the critic targets') change only on
calls where the internal update counter is a multiple of `policy_freq`, and
on those calls the actor step is computed from the already-updated critics
(only after the critic update), while both critics' parameters are
re-computed by their gradient updates on every `learn` call. -/
theorem delayed_policy_update (policyFreq : Nat) (tau : ℚ)
    (criticStep1 criticStep2 actorStep : MATD3Nets → NetParams)
    (s0 : MATD3LearnState) (n : Nat) :
    ((s0.learnCounter + n) % policyFreq ≠ 0 →
        (learnIter policyFreq tau criticStep1 criticStep2 actorStep s0 (n + 1)).nets.actor
            = (learnIter policyFreq tau criticStep1 criticStep2 actorStep s0 n).nets.actor
          ∧ (learnIter policyFreq tau criticStep1 criticStep2 actorStep s0 (n + 1)).nets.actorTarget
            = (learnIter policyFreq tau criticStep1 criticStep2 actorStep s0 n).nets.actorTarget
          ∧ (learnIter policyFreq tau criticStep1 criticStep2 actorStep s0 (n + 1)).nets.criticTarget1
            = (learnIter policyFreq tau criticStep1 criticStep2 actorStep s0 n).nets.criticTarget1
          ∧ (learnIter policyFreq tau criticStep1 criticStep2 actorStep s0 (n + 1)).nets.criticTarget2
            = (learnIter policyFreq tau criticStep1 criticStep2 actorStep s0 n).nets.criticTarget2)
    ∧ ((learnIter policyFreq tau criticStep1 criticStep2 actorStep s0 (n + 1)).nets.critic1
          = criticStep1 (learnIter policyFreq tau criticStep1 criticStep2 actorStep s0 n).nets
        ∧ (learnIter policyFreq tau criticStep1 criticStep2 actorStep s0 (n + 1)).nets.critic2
          = criticStep2 (learnIter policyFreq tau criticStep1 criticStep2 actorStep s0 n).nets)
    ∧ ((s0.learnCounter + n) % policyFreq = 0 →
        (learnIter policyFreq tau criticStep1 criticStep2 actorStep s0 (n + 1)).nets.actor
          = actorStep
              { (learnIter policyFreq tau criticStep1 criticStep2 actorStep s0 n).nets with
                critic1 := criticStep1 (learnIter policyFreq tau criticStep1 criticStep2 actorStep s0 n).nets,
                critic2 := criticStep2 (learnIter policyFreq tau criticStep1 criticStep2 actorStep s0 n).nets }) := by
  have hc := learnIter_counter policyFreq tau criticStep1 criticStep2 actorStep s0 n
  have hstep : learnIter policyFreq tau criticStep1 criticStep2 actorStep s0 (n + 1)
      = matd3Learn policyFreq tau criticStep1 criticStep2 actorStep
          (learnIter policyFreq tau criticStep1 criticStep2 actorStep s0 n) := rfl
  rw [hstep]
  simp only [matd3Learn, hc]
  by_cases h : (s0.learnCounter + n) % policyFreq = 0
  · rw [if_pos h]
    exact ⟨fun hn => absurd h hn, ⟨rfl, rfl⟩, fun _ => rfl⟩
  · rw [if_neg h]
    exact ⟨fun _ => ⟨rfl, rfl, rfl, rfl⟩, ⟨rfl, rfl⟩, fun hcon => absurd hcon h⟩

/-- Witness for C4 at a concrete input: with `policy_freq = 2` and the
counter starting at 0, the second `learn` call (update counter 1, not a
multiple of 2) leaves actor and all target networks unchanged. -/
theorem delayed_policy_update_witness :
    (learnIter 2 (1/2) (fun _ => [[1]]) (fun _ => [[2]]) (fun _ => [[3]]) sampleLearnState 2).nets.actor
        = (learnIter 2 (1/2) (fun _ => [[1]]) (fun _ => [[2]]) (fun _ => [[3]]) sampleLearnState 1).nets.actor
    ∧ (learnIter 2 (1/2) (fun _ => [[1]]) (fun _ => [[2]]) (fun _ => [[3]]) sampleLearnState 2).nets.actorTarget
        = (learnIter 2 (1/2) (fun _ => [[1]]) (fun _ => [[2]]) (fun _ => [[3]]) sampleLearnState 1).nets.actorTarget
    ∧ (learnIter 2 (1/2) (fun _ => [[1]]) (fun _ => [[2]]) (fun _ => [[3]]) sampleLearnState 2).nets.criticTarget1
        = (learnIter 2 (1/2) (fun _ => [[1]]) (fun _ => [[2]]) (fun _ => [[3]]) sampleLearnState 1).nets.criticTarget1
    ∧ (learnIter 2 (1/2) (fun _ => [[1]]) (fun _ => [[2]]) (fun _ => [[3]]) sampleLearnState 2).nets.criticTarget2
        = (learnIter 2 (1/2) (fun _ => [[1]]) (fun _ => [[2]]) (fun _ => [[3]]) sampleLearnState 1).nets.criticTarget2 :=
  (delayed_policy_update 2 (1/2) (fun _ => [[1]]) (fun _ => [[2]]) (fun _ => [[3]])
      sampleLearnState 1).1 (by decide)

/-- Claim C6: for every declared `[min_action, max_action]` bounds,
`scale_to_action_space` maps a Tanh output linearly onto `[min, max]` —
it is the affine map `min + (max-min)*(v+1)/2`, sending `-1` to `min` and
`1` to `max` and keeping outputs inside `[min, max]` — and maps a Sigmoid
or GumbelSoftmax output `v` in `[0, 1]` to `v*(max-min) + min`. -/
theorem action_scaling_formula (mn mx v : ℚ) :
    scale_to_action_space .tanhAct mn mx v = mn + (mx - mn) * (v + 1) / 2
    ∧ scale_to_action_space .tanhAct mn mx (-1) = mn
    ∧ scale_to_action_space .tanhAct mn mx 1 = mx
    ∧ (-1 ≤ v → v ≤ 1 → mn ≤ mx →
        mn ≤ scale_to_action_space .tanhAct mn mx v
          ∧ scale_to_action_space .tanhAct mn mx v ≤ mx)
    ∧ scale_to_action_space .sigmoidAct mn mx v = v * (mx - mn) + mn
    ∧ scale_to_action_space .gumbelSoftmaxAct mn mx v = v * (mx - mn) + mn := by
  refine ⟨?_, ?_, ?_, fun h1 h2 h3 => ⟨?_, ?_⟩, ?_, ?_⟩ <;>
    simp only [scale_to_action_space, preScaledBounds]
  · ring
  · ring
  · ring
  · nlinarith [mul_nonneg (by linarith : (0:ℚ) ≤ mx - mn) (by linarith : (0:ℚ) ≤ v + 1)]
  · nlinarith [mul_nonneg (by linarith : (0:ℚ) ≤ mx - mn) (by linarith : (0:ℚ) ≤ 1 - v)]
  · ring
  · ring

/-- Witness for C6 at a concrete input: the test vector of
`test_action_scaling` — Tanh output `0.1` with bounds `[-1, 2]` stays
inside `[-1, 2]`. -/
theorem action_scaling_formula_witness :
    (-1 : ℚ) ≤ scale_to_action_space .tanhAct (-1) 2 (1/10)
    ∧ scale_to_action_space .tanhAct (-1) 2 (1/10) ≤ 2 :=
  (action_scaling_formula (-1) 2 (1/10)).2.2.2.1 (by norm_num) (by norm_num) (by norm_num)

theorem action_scaling_matches_test_vector :
    scale_to_action_space .tanhAct (-1) 2 (1/10) = 13/20 := by
  norm_num [scale_to_action_space, preScaledBounds]

/-- Claim C1: for every supported architecture mutation — add/remove
hidden layer, add/remove node, and the `recreate_nets` rebuild after
growing or shrinking the hidden-size list — every parameter tensor entry
present at the same named index/slice in both the old and the new
descriptor is bit-identical after the parameter-preserving rebuild (the
live network satisfying the shape invariant `hcoh` beforehand). -/
theorem mutation_preserves_overlapping_parameters
    (b : EvoBounds) (fresh : LayerKey → Nat → Nat → ℚ) (m : MLPMutation)
    (net : EvoMLP) (key : LayerKey) (i j : Nat)
    (hcoh : net.value_net.hiddenSizes = net.hidden_size)
    (hOld : keyPresent net.hidden_size key)
    (hNew : keyPresent (applyMutation b fresh m net).hidden_size key)
    (hi : i < (net.value_net.params key).rows)
    (hj : j < (net.value_net.params key).cols)
    (hi2 : i < ((applyMutation b fresh m net).value_net.params key).rows)
    (hj2 : j < ((applyMutation b fresh m net).value_net.params key).cols) :
    ((applyMutation b fresh m net).value_net.params key).entry i j
      = (net.value_net.params key).entry i j := by
  have hpres : keyPresent net.value_net.hiddenSizes key := by rwa [hcoh]
  simp only [applyMutation, recreate_nets, preserve_parameters, createMLP]
  rw [if_pos hpres]
  exact if_pos ⟨hi, hj⟩

/-- Witness for C1 at a concrete input: adding a hidden layer to the
network with hidden sizes `[2, 3]` preserves entry `(1, 1)` of the second
hidden layer's weight tensor. -/
theorem mutation_preserves_overlapping_parameters_witness :
    ((applyMutation sampleBounds (fun _ _ _ => 99) MLPMutation.addLayer
          sampleEvoNet).value_net.params (LayerKey.hiddenLayer 1)).entry 1 1
      = ((sampleEvoNet.value_net.params (LayerKey.hiddenLayer 1)).entry 1 1) :=
  mutation_preserves_overlapping_parameters sampleBounds (fun _ _ _ => 99)
    MLPMutation.addLayer sampleEvoNet (LayerKey.hiddenLayer 1) 1 1 rfl (by decide)
    (by decide) (by decide) (by decide) (by decide) (by decide)

end AgileRL
